import Mathlib

/-!
Verification of the `Message` core of the pyOutlook repository
(`pyOutlook/core/message.py`) against its natural-language specification.

The Python source is shallowly embedded: the effectful HTTP layer is made
explicit by passing a `Transport` (the external `requests` collaborator,
a function from the request the code builds to the response it receives)
and by returning, next to the Python result, the list of HTTP requests
actually performed (the network-call log) and the post-call state of the
`Message` object.  Python exceptions become an explicit `Except PyError`
result.  All string payloads are built exactly as the source builds them
(by concatenation, or through a model of Python's `str.format` where the
source uses it on a non-trivial template).
-/

/-- The Python exception kinds that can escape the code under study.
`authError` models `pyOutlook.internal.errors.AuthError`, `miscError`
models `MiscError`, `keyError` a `KeyError` with its key, `valueError` a
`ValueError` (in particular the `json.JSONDecodeError` raised by
`requests.Response.json()` on an undecodable body, a subclass of
`ValueError`), `typeError` a `TypeError`, and `indexError` an
`IndexError`. -/
inductive PyError where
  | authError (msg : String)
  | miscError (msg : String)
  | keyError (key : String)
  | valueError (msg : String)
  | typeError (msg : String)
  | indexError (msg : String)
  deriving Repr, DecidableEq

/-- The Account collaborator (external to this core): it only supplies the
bearer token, `self.account.access_token` in the source. -/
structure Account where
  access_token : String
  deriving Repr, DecidableEq

/-- One entry of the raw `ToRecipients` JSON array; kept structured but
opaque to the `Message` methods (the source stores it verbatim). -/
structure RawEmailAddress where
  Address : Option String
  Name : Option String
  deriving Repr, DecidableEq

/-- The raw `Sender` (or recipient) JSON object: a wrapper holding an
optional `EmailAddress` object. -/
structure RawSender where
  EmailAddress : Option RawEmailAddress
  deriving Repr, DecidableEq

/-- The raw `Body` JSON object with its optional `Content` field. -/
structure RawBody where
  Content : Option String
  deriving Repr, DecidableEq

/-- A raw JSON message object as consumed by `Message._json_to_message`
(spec section 6 lists exactly these fields).  `Option` models presence or
absence of each key in the JSON dictionary. -/
structure RawMessageJson where
  Id : Option String
  Subject : Option String
  Sender : Option RawSender
  Body : Option RawBody
  ToRecipients : Option (List RawSender)
  IsRead : Option Bool
  deriving Repr, DecidableEq

/-- A raw batch listing response: a JSON object with an optional `value`
key holding an array of raw message objects. -/
structure RawBatchJson where
  value : Option (List RawMessageJson)
  deriving Repr, DecidableEq

/-- The `Message` entity (`Message.__init__`): all fields set at
construction; `is_read` embeds the private `self.__is_read` attribute. -/
structure Message where
  account : Account
  message_id : String
  body : String
  subject : String
  sender_email : String
  sender_name : String
  to_recipients : List RawSender
  is_read : Bool
  deriving Repr, DecidableEq

/-- An HTTP request as handed to the `requests` module: the verb (a plain
string in the source), the endpoint URL, the headers dictionary and the
optional body (`requests.delete` is called without a body). -/
structure HttpRequest where
  http_type : String
  endpoint : String
  headers : List (String × String)
  data : Option String
  deriving Repr, DecidableEq

instance {ε α : Type} [DecidableEq ε] [DecidableEq α] : DecidableEq (Except ε α) :=
  fun a b => match a, b with
  | .ok x, .ok y =>
    if h : x = y then isTrue (by rw [h]) else isFalse (by intro hh; cases hh; exact h rfl)
  | .error e, .error f =>
    if h : e = f then isTrue (by rw [h]) else isFalse (by intro hh; cases hh; exact h rfl)
  | .ok _, .error _ => isFalse (by intro h; cases h)
  | .error _, .ok _ => isFalse (by intro h; cases h)

/-- An HTTP response as seen by the source: its status code, and the
outcome of calling `.json()` on it — `.ok ()` when the body is
JSON-decodable, `.error e` when `.json()` raises `e` (the source's own
success-branch comment notes that `r.json()` raises on an empty body). -/
structure HttpResponse where
  status_code : Nat
  json_result : Except PyError Unit
  deriving Repr, DecidableEq

/-- The external synchronous HTTP transport: what response comes back for
the request the code performs. -/
def Transport : Type := HttpRequest → HttpResponse

/-- Python dict assignment `d[k] = v`: replace the value in place if the
key exists, otherwise append (insertion order preserved). -/
def dictSetItem (d : List (String × String)) (k v : String) : List (String × String) :=
  if d.any (fun p => p.1 == k) then
    d.map (fun p => if p.1 == k then (k, v) else p)
  else
    d ++ [(k, v)]

/-- Python `d.update(e)`: assign every pair of `e` into `d`, in order. -/
def dictUpdate (d e : List (String × String)) : List (String × String) :=
  e.foldl (fun acc p => dictSetItem acc p.1 p.2) d

/-- The default header dictionary built at the top of
`Message._make_api_call`:
`Authorization: Bearer <token>` and `Content-Type: application/json`. -/
def defaultHeaders (access_token : String) : List (String × String) :=
  [("Authorization", "Bearer " ++ access_token), ("Content-Type", "application/json")]

/-- The status-code translation at the end of `Message._make_api_call`.
Both error branches first evaluate `r.json()` (it is an argument of the
`log.error(...format(r.status_code, r.json()))` call), so a JSON-decode
failure propagates instead of the typed error; the success branch logs
`r.content` and never calls `r.json()`. -/
def classifyResponse (r : HttpResponse) : Except PyError Unit :=
  if r.status_code = 401 then
    match r.json_result with
    | .error e => .error e
    | .ok _ => .error (.authError "Access Token Error, Received 401 from Outlook REST Endpoint")
  else if r.status_code > 299 then
    match r.json_result with
    | .error e => .error e
    | .ok _ => .error (.miscError "Unhandled error received from Outlook. Check logging output.")
  else
    .ok ()

/-- The header dictionary of `Message._make_api_call` after the optional
`headers.update(extra_headers)`. -/
def mergedHeaders (access_token : String)
    (extra_headers : Option (List (String × String))) : List (String × String) :=
  match extra_headers with
  | some eh => dictUpdate (defaultHeaders access_token) eh
  | none => defaultHeaders access_token

/-- `Message._make_api_call`: build the headers (defaults updated with the
optional extra headers), dispatch on the verb string, perform the single
HTTP call, and translate the response.  Returns the Python outcome
together with the list of network calls performed.  The final `else`
branch of the source is `raise NotImplemented`: `NotImplemented` is not
an exception class, so at runtime Python raises
`TypeError: exceptions must derive from BaseException` — that actual
behavior is what is embedded. -/
def Message._make_api_call (transport : Transport) (m : Message)
    (http_type endpoint : String) (extra_headers : Option (List (String × String)))
    (data : Option String) : Except PyError Unit × List HttpRequest :=
  let headers := mergedHeaders m.account.access_token extra_headers
  if http_type = "post" then
    let req : HttpRequest := ⟨"post", endpoint, headers, data⟩
    (classifyResponse (transport req), [req])
  else if http_type = "delete" then
    let req : HttpRequest := ⟨"delete", endpoint, headers, none⟩
    (classifyResponse (transport req), [req])
  else if http_type = "patch" then
    let req : HttpRequest := ⟨"patch", endpoint, headers, data⟩
    (classifyResponse (transport req), [req])
  else
    (.error (.typeError "exceptions must derive from BaseException"), [])

example :
    Message._make_api_call (fun _ => ⟨401, .ok ()⟩) ⟨⟨"t"⟩, "A", "", "", "", "", [], false⟩
      "post" "ep" none none =
    (.error (.authError "Access Token Error, Received 401 from Outlook REST Endpoint"),
      [⟨"post", "ep", defaultHeaders "t", none⟩]) := rfl

example :
    Message._make_api_call (fun _ => ⟨204, .error (.valueError "x")⟩)
      ⟨⟨"t"⟩, "A", "", "", "", "", [], false⟩ "delete" "ep" none none =
    (.ok (), [⟨"delete", "ep", defaultHeaders "t", none⟩]) := rfl

/-- Scan for the `\x7d` closing a `str.format` replacement field, counting
brace nesting (a format spec may itself contain a replacement field).
Returns the field contents and the remainder of the template. -/
def findCloseBrace : List Char → Nat → List Char → Option (List Char × List Char)
  | [], _, _ => none
  | '}' :: rest, 0, acc => some (acc.reverse, rest)
  | '}' :: rest, d + 1, acc => findCloseBrace rest d ('}' :: acc)
  | '{' :: rest, d, acc => findCloseBrace rest (d + 1) ('{' :: acc)
  | c :: rest, d, acc => findCloseBrace rest d (c :: acc)

/-- The subset of Python's `str.format` semantics exercised by the source:
literal text, `\x7b\x7b`/`\x7d\x7d` escapes, auto-numbered `\x7b\x7d`
fields, explicit positional `\x7bN\x7d` fields, and the error cases —
an unmatched brace is a `ValueError`, too few arguments an `IndexError`,
and a non-empty, non-numeric field name is looked up among the keyword
arguments (there are none at the source's call sites), a `KeyError`.
CPython resolves the field before processing its format spec, so a bad
field name errors without consuming arguments.  Fuel is the remaining
template length plus one, so it never runs out. -/
def pyFormatCore (args : List String) : Nat → Nat → List Char → Except PyError (List Char)
  | 0, _, _ => .error (.valueError "format template fuel exhausted")
  | _ + 1, _, [] => .ok []
  | fuel + 1, auto, '{' :: '{' :: rest =>
    (pyFormatCore args fuel auto rest).map (fun t => '{' :: t)
  | fuel + 1, auto, '}' :: '}' :: rest =>
    (pyFormatCore args fuel auto rest).map (fun t => '}' :: t)
  | _ + 1, _, '}' :: _ =>
    .error (.valueError "Single \x7d encountered in format string")
  | fuel + 1, auto, '{' :: rest =>
    match findCloseBrace rest 0 [] with
    | none => .error (.valueError "Single \x7b encountered in format string")
    | some (field, rest') =>
      let fieldName := field.takeWhile (fun c => !(c == ':' || c == '!'))
      if fieldName.isEmpty then
        match args.get? auto with
        | some a => (pyFormatCore args fuel (auto + 1) rest').map (fun t => a.toList ++ t)
        | none => .error (.indexError "Replacement index out of range")
      else if fieldName.all Char.isDigit then
        match args.get? (fieldName.foldl (fun n c => n * 10 + (c.toNat - 48)) 0) with
        | some a => (pyFormatCore args fuel auto rest').map (fun t => a.toList ++ t)
        | none => .error (.indexError "Replacement index out of range")
      else
        .error (.keyError (String.mk fieldName))
  | fuel + 1, auto, c :: rest =>
    (pyFormatCore args fuel auto rest).map (fun t => c :: t)

/-- Python `template.format(*args)` (subset, see `pyFormatCore`). -/
def pyFormat (template : String) (args : List String) : Except PyError String :=
  (pyFormatCore args (template.toList.length + 1) 0 template.toList).map String.mk

example : pyFormat "abc\x7b\x7ddef" ["X"] = .ok "abcXdef" := rfl
example : pyFormat "\x7b\x7d-\x7b\x7d" ["a", "b"] = .ok "a-b" := rfl
example : pyFormat "\x7b\x7b\x7d\x7d" [] = .ok "\x7b\x7d" := rfl
example : pyFormat "a\x7b\x7d" [] = .error (.indexError "Replacement index out of range") := rfl
example : pyFormat "\x7bkey\x7d" ["a"] = .error (.keyError "key") := rfl
example : pyFormat "\x7b name\x7d" ["a"] = .error (.keyError " name") := rfl

/-- Recipient input of `Message.forward_message`: either one
comma-separated string of addresses or a sequence of addresses. -/
inductive Recipients where
  | str (s : String)
  | list (l : List String)
  deriving Repr, DecidableEq

/-- Python `s.split(",")` over a character list (splitting an empty string
yields one empty piece, as in Python). -/
def splitOnComma : List Char → List (List Char)
  | [] => [[]]
  | ',' :: rest => [] :: splitOnComma rest
  | c :: rest =>
    match splitOnComma rest with
    | [] => [[c]]
    | piece :: pieces => (c :: piece) :: pieces

/-- Strip leading and trailing ASCII spaces. -/
def trimSpaces (l : List Char) : List Char :=
  ((l.dropWhile (fun c => c == ' ')).reverse.dropWhile (fun c => c == ' ')).reverse

/-- One serialized recipient object. -/
def recipientJson (addr : String) : String :=
  "\x7b\"EmailAddress\": \x7b\"Address\": \"" ++ addr ++ "\"\x7d\x7d"

/-- Modelled from the spec: `pyOutlook/internal/utils.py` (which defines
`jsonify_recipients`, imported by `message.py`) is not under `src/`.
Per spec sections 4.3 and 8: "both single string and
sequence-of-strings/sequence-of-structured-recipient inputs must
serialize to a JSON array of `\x7bEmailAddress: \x7bAddress: <addr>\x7d\x7d`
objects; a comma-separated string is split and trimmed into individual
addresses".  The spec assigns no failure behavior to this serialization;
it returns the comma-joined array elements (the caller supplies the
surrounding brackets). -/
def jsonify_recipients (recipients : Recipients) : String :=
  let addrs := match recipients with
    | .str s => (splitOnComma s.toList).map (fun piece => String.mk (trimSpaces piece))
    | .list l => l
  String.intercalate ", " (addrs.map recipientJson)

example : jsonify_recipients (.str "a@x.com, b@y.com") =
    "\x7b\"EmailAddress\": \x7b\"Address\": \"a@x.com\"\x7d\x7d, \x7b\"EmailAddress\": \x7b\"Address\": \"b@y.com\"\x7d\x7d" := rfl
example : jsonify_recipients (.list []) = "" := rfl
example : jsonify_recipients (.str "") = "\x7b\"EmailAddress\": \x7b\"Address\": \"\"\x7d\x7d" := rfl

/-- `Message.forward_message`: build the payload (optional `Comment`
first), reject `None` recipients with a `MiscError` before the API call,
serialize the recipients, and post to `.../{message_id}/forward` (the
source builds the endpoint with a plain `\x7b\x7d.format(self.message_id)`,
i.e. concatenation). -/
def Message.forward_message (transport : Transport) (m : Message)
    (to_recipients : Option Recipients) (forward_comment : Option String) :
    Except PyError Unit × List HttpRequest × Message :=
  let payload := "\x7b" ++ (match forward_comment with
    | some c => "\"Comment\" : \"" ++ c ++ "\","
    | none => "")
  match to_recipients with
  | none => (.error (.miscError "To Recipients is not defined. Can not forward message."), [], m)
  | some recips =>
    let payload := payload ++ "\"ToRecipients\" : [" ++ jsonify_recipients recips ++ "]\x7d"
    let endpoint := "https://outlook.office.com/api/v2.0/me/messages/" ++ m.message_id ++ "/forward"
    let (res, log) := Message._make_api_call transport m "post" endpoint none (some payload)
    (res, log, m)

/-- `Message.reply`: payload built by plain string concatenation (the
comment is not JSON-escaped), posted to `.../{message_id}/reply`. -/
def Message.reply (transport : Transport) (m : Message) (reply_comment : String) :
    Except PyError Unit × List HttpRequest × Message :=
  let payload := "\x7b \"Comment\": \"" ++ reply_comment ++ "\"\x7d"
  let endpoint := "https://outlook.office.com/api/v2.0/me/messages/" ++ m.message_id ++ "/reply"
  let (res, log) := Message._make_api_call transport m "post" endpoint none (some payload)
  (res, log, m)

/-- `Message.reply_all`: same payload shape as `reply`, posted to
`.../{message_id}/replyall`. -/
def Message.reply_all (transport : Transport) (m : Message) (reply_comment : String) :
    Except PyError Unit × List HttpRequest × Message :=
  let payload := "\x7b \"Comment\": \"" ++ reply_comment ++ "\"\x7d"
  let endpoint := "https://outlook.office.com/api/v2.0/me/messages/" ++ m.message_id ++ "/replyall"
  let (res, log) := Message._make_api_call transport m "post" endpoint none (some payload)
  (res, log, m)

/-- `Message.delete`: a bodiless delete of the bare message endpoint. -/
def Message.delete (transport : Transport) (m : Message) :
    Except PyError Unit × List HttpRequest × Message :=
  let endpoint := "https://outlook.office.com/api/v2.0/me/messages/" ++ m.message_id
  let (res, log) := Message._make_api_call transport m "delete" endpoint none none
  (res, log, m)

/-- `Message.delete_message`: emits the deprecation warning (returned as
the first component, `warnings.warn(...)` in the source) and then
forwards to `Message.delete`. -/
def Message.delete_message (transport : Transport) (m : Message) :
    List String × (Except PyError Unit × List HttpRequest × Message) :=
  (["delete_message() is deprecated and will be removed in v1.0. Use delete() instead."],
   Message.delete transport m)

/-- `Message._move_to`: payload built by concatenation, posted to
`.../{message_id}/move`. -/
def Message._move_to (transport : Transport) (m : Message) (destination : String) :
    Except PyError Unit × List HttpRequest × Message :=
  let endpoint := "https://outlook.office.com/api/v2.0/me/messages/" ++ m.message_id ++ "/move"
  let payload := "\x7b \"DestinationId\": \"" ++ destination ++ "\"\x7d"
  let (res, log) := Message._make_api_call transport m "post" endpoint none (some payload)
  (res, log, m)

/-- `Message.move_to_inbox`. -/
def Message.move_to_inbox (transport : Transport) (m : Message) :
    Except PyError Unit × List HttpRequest × Message :=
  Message._move_to transport m "Inbox"

/-- `Message.move_to_deleted`. -/
def Message.move_to_deleted (transport : Transport) (m : Message) :
    Except PyError Unit × List HttpRequest × Message :=
  Message._move_to transport m "DeletedItems"

/-- `Message.move_to_drafts`. -/
def Message.move_to_drafts (transport : Transport) (m : Message) :
    Except PyError Unit × List HttpRequest × Message :=
  Message._move_to transport m "Drafts"

/-- `Message.move_to`. -/
def Message.move_to (transport : Transport) (m : Message) (folder_id : String) :
    Except PyError Unit × List HttpRequest × Message :=
  Message._move_to transport m folder_id

/-- `Message._copy_to`: re-derives the default headers and passes them as
extra headers; the payload is built with
`'\x7b "DestinationId": "\x7b\x7d"\x7d'.format(destination)` — evaluated
through the `str.format` model, since that template is not the simple
`\x7b\x7d` placeholder the other endpoints use. -/
def Message._copy_to (transport : Transport) (m : Message) (destination : String) :
    Except PyError Unit × List HttpRequest × Message :=
  let headers := defaultHeaders m.account.access_token
  let endpoint := "https://outlook.office.com/api/v2.0/me/messages/" ++ m.message_id ++ "/copy"
  match pyFormat "\x7b \"DestinationId\": \"\x7b\x7d\"\x7d" [destination] with
  | .error e => (.error e, [], m)
  | .ok payload =>
    let (res, log) := Message._make_api_call transport m "post" endpoint (some headers) (some payload)
    (res, log, m)

/-- `Message.copy_to_inbox`. -/
def Message.copy_to_inbox (transport : Transport) (m : Message) :
    Except PyError Unit × List HttpRequest × Message :=
  Message._copy_to transport m "Inbox"

/-- `Message.copy_to_deleted`. -/
def Message.copy_to_deleted (transport : Transport) (m : Message) :
    Except PyError Unit × List HttpRequest × Message :=
  Message._copy_to transport m "DeletedItems"

/-- `Message.copy_to_drafts`. -/
def Message.copy_to_drafts (transport : Transport) (m : Message) :
    Except PyError Unit × List HttpRequest × Message :=
  Message._copy_to transport m "Drafts"

/-- `Message.copy_to`. -/
def Message.copy_to (transport : Transport) (m : Message) (folder_id : String) :
    Except PyError Unit × List HttpRequest × Message :=
  Message._copy_to transport m folder_id

/-- The `is_read` property setter: patch the bare message endpoint with
`json.dumps(dict(IsRead=boolean))` and only then assign the private
`self.__is_read` field — so on any raise the field keeps its old value. -/
def Message.set_is_read (transport : Transport) (m : Message) (boolean : Bool) :
    Except PyError Unit × List HttpRequest × Message :=
  let endpoint := "https://outlook.office.com/api/v2.0/me/messages/" ++ m.message_id
  let payload := "\x7b\"IsRead\": " ++ (if boolean then "true" else "false") ++ "\x7d"
  let r := Message._make_api_call transport m "patch" endpoint none (some payload)
  match r.1 with
  | .ok _ => (.ok (), r.2,
      Message.mk m.account m.message_id m.body m.subject m.sender_email m.sender_name
        m.to_recipients boolean)
  | .error e => (.error e, r.2, m)

/-- `Message._json_to_message`: required keys `Id` and `IsRead` raise a
`KeyError` when absent (in source order: `Id` first); every optional
field defaults through Python's `dict.get` chains. -/
def _json_to_message (account : Account) (api_json : RawMessageJson) :
    Except PyError Message :=
  match api_json.Id with
  | none => .error (.keyError "Id")
  | some uid =>
    let subject := api_json.Subject.getD ""
    let sender := match api_json.Sender with
      | none => RawEmailAddress.mk none none
      | some s => s.EmailAddress.getD (RawEmailAddress.mk none none)
    let sender_email := sender.Address.getD ""
    let sender_name := sender.Name.getD ""
    let body := match api_json.Body with
      | none => ""
      | some b => b.Content.getD ""
    let to_recipients := api_json.ToRecipients.getD []
    match api_json.IsRead with
    | none => .error (.keyError "IsRead")
    | some is_read =>
      .ok ⟨account, uid, body, subject, sender_email, sender_name, to_recipients, is_read⟩

/-- The list comprehension inside `Message._json_to_messages`: apply the
single-object factory left to right, aborting at the first raise. -/
def mapMessages (account : Account) : List RawMessageJson → Except PyError (List Message)
  | [] => .ok []
  | j :: rest =>
    match _json_to_message account j with
    | .error e => .error e
    | .ok m =>
      match mapMessages account rest with
      | .error e => .error e
      | .ok ms => .ok (m :: ms)

/-- `Message._json_to_messages`: index the batch object's `value` key
(a `KeyError` when absent) and map the single-object factory over it. -/
def _json_to_messages (account : Account) (json_value : RawBatchJson) :
    Except PyError (List Message) :=
  match json_value.value with
  | none => .error (.keyError "value")
  | some arr => mapMessages account arr

/-- Lower-case hex digit of a value below 16. -/
def hexDigitChar (n : Nat) : Char :=
  if n < 10 then Char.ofNat (48 + n) else Char.ofNat (87 + n)

/-- JSON escaping of one character inside a string literal: `"` and `\`
get a backslash, control characters a `\u00XX` escape, everything else
stands for itself. -/
def json_escape_char (c : Char) : List Char :=
  if c == '"' then ['\\', '"']
  else if c == '\\' then ['\\', '\\']
  else if c.toNat < 32 then
    ['\\', 'u', '0', '0', hexDigitChar (c.toNat / 16), hexDigitChar (c.toNat % 16)]
  else [c]

/-- A JSON string literal: the escaped characters between quotes. -/
def json_string_lit (s : String) : String :=
  "\"" ++ String.mk (s.toList.map json_escape_char).flatten ++ "\""

/-- Follows the spec's words (sections 4.3 and 6): the request body of
`reply(comment)` is "the JSON encoding of the object
`\x7bComment: comment\x7d`" — a JSON object whose single `Comment` member
carries the comment as a properly escaped JSON string literal.  The
insignificant whitespace is chosen as the source lays it out, so that the
comparison with the produced body is about escaping, not formatting. -/
def spec_reply_body (comment : String) : String :=
  "\x7b \"Comment\": " ++ json_string_lit comment ++ "\x7d"

example : json_string_lit "ab" = "\"ab\"" := rfl
example : json_string_lit "a\"b" = "\"a\\\"b\"" := rfl
example : json_string_lit "a\\b" = "\"a\\\\b\"" := rfl
example : json_string_lit "a\nb" = "\"a\\u000ab\"" := rfl

/-- Characters that JSON escaping leaves alone. -/
def jsonPlainChar (c : Char) : Prop :=
  c ≠ '"' ∧ c ≠ '\\' ∧ 32 ≤ c.toNat

instance (c : Char) : Decidable (jsonPlainChar c) := by
  unfold jsonPlainChar; infer_instance

theorem json_escape_char_plain {c : Char} (h : jsonPlainChar c) :
    json_escape_char c = [c] := by
  obtain ⟨h1, h2, h3⟩ := h
  simp [json_escape_char, h1, h2, Nat.not_lt.mpr h3]

theorem json_escape_flatten_plain :
    ∀ (l : List Char), (∀ c ∈ l, jsonPlainChar c) →
      (l.map json_escape_char).flatten = l := by
  intro l h
  induction l with
  | nil => rfl
  | cons a t ih =>
    have ha := h a (by simp)
    have ht := ih (fun c hc => h c (by simp [hc]))
    simp [json_escape_char_plain ha, ht]

theorem json_string_lit_plain {s : String} (h : ∀ c ∈ s.toList, jsonPlainChar c) :
    json_string_lit s = "\"" ++ s ++ "\"" := by
  unfold json_string_lit
  rw [json_escape_flatten_plain s.toList h]
  rfl

/-- Fixture: an account and a message used by concrete witnesses. -/
def acct0 : Account := ⟨"tok"⟩

/-- Fixture: a concrete message. -/
def msg0 : Message := ⟨acct0, "AAA", "", "", "", "", [], false⟩

/-- Fixture: a transport answering 200 with a decodable body. -/
def okTransport : Transport := fun _ => ⟨200, .ok ()⟩

/-- Fixture: a transport answering 500 with a decodable body. -/
def fail500Transport : Transport := fun _ => ⟨500, .ok ()⟩

/-- Fixture: a transport answering 401 with a decodable body. -/
def ok401Transport : Transport := fun _ => ⟨401, .ok ()⟩

/-- Fixture: a transport answering 401 with an empty (hence
JSON-undecodable) body: `r.json()` raises the CPython decode error. -/
def emptyBody401Transport : Transport :=
  fun _ => ⟨401, .error (.valueError "Expecting value: line 1 column 1 (char 0)")⟩




theorem classifyResponse_401 {r : HttpResponse} (h : r.status_code = 401)
    (hj : r.json_result = .ok ()) :
    classifyResponse r =
      .error (.authError "Access Token Error, Received 401 from Outlook REST Endpoint") := by
  simp [classifyResponse, h, hj]

theorem classifyResponse_gt299 {r : HttpResponse} (h401 : r.status_code ≠ 401)
    (hgt : 299 < r.status_code) (hj : r.json_result = .ok ()) :
    classifyResponse r =
      .error (.miscError "Unhandled error received from Outlook. Check logging output.") := by
  simp [classifyResponse, h401, hgt, hj]

theorem classifyResponse_le299 {r : HttpResponse} (h : r.status_code ≤ 299) :
    classifyResponse r = .ok () := by
  have h1 : r.status_code ≠ 401 := by omega
  have h2 : ¬ 299 < r.status_code := by omega
  simp [classifyResponse, h1, h2]

/-- The request the `is_read` setter hands to the transport. -/
def isReadRequest (m : Message) (b : Bool) : HttpRequest :=
  ⟨"patch", "https://outlook.office.com/api/v2.0/me/messages/" ++ m.message_id,
   mergedHeaders m.account.access_token none,
   some ("\x7b\"IsRead\": " ++ (if b then "true" else "false") ++ "\x7d")⟩

theorem set_is_read_eq (tr : Transport) (m : Message) (b : Bool) :
    Message.set_is_read tr m b =
      match classifyResponse (tr (isReadRequest m b)) with
      | .ok _ => (Except.ok (), [isReadRequest m b],
          Message.mk m.account m.message_id m.body m.subject m.sender_email m.sender_name
            m.to_recipients b)
      | .error e => (Except.error e, [isReadRequest m b], m) := rfl

/-- C1 (amended): for every production verb (post/delete/patch) the
Gateway performs exactly one HTTP call; when the response body is
JSON-decodable, a 401 status raises the authentication failure
(`AuthError`), any other status above 299 raises the generic failure
(`MiscError`), and a status at most 299 is a success in which the Gateway
raises nothing and returns no value (for any body).  See
`c1_counterexample` for the undecodable-body 401 case the original claim
misses. -/
theorem c1_gateway_classification (tr : Transport) (m : Message)
    (verb endpoint : String) (extra_headers : Option (List (String × String)))
    (data : Option String)
    (hverb : verb = "post" ∨ verb = "delete" ∨ verb = "patch") :
    ∃ req : HttpRequest,
      (Message._make_api_call tr m verb endpoint extra_headers data).2 = [req] ∧
      ((tr req).status_code = 401 → (tr req).json_result = .ok () →
        (Message._make_api_call tr m verb endpoint extra_headers data).1 =
          .error (.authError "Access Token Error, Received 401 from Outlook REST Endpoint")) ∧
      ((tr req).status_code ≠ 401 → 299 < (tr req).status_code →
        (tr req).json_result = .ok () →
        (Message._make_api_call tr m verb endpoint extra_headers data).1 =
          .error (.miscError "Unhandled error received from Outlook. Check logging output.")) ∧
      ((tr req).status_code ≤ 299 →
        (Message._make_api_call tr m verb endpoint extra_headers data).1 = .ok ()) := by
  rcases hverb with h | h | h <;> subst h
  · exact ⟨⟨"post", endpoint, mergedHeaders m.account.access_token extra_headers, data⟩,
      rfl, fun h1 h2 => classifyResponse_401 h1 h2,
      fun h1 h2 h3 => classifyResponse_gt299 h1 h2 h3,
      fun h1 => classifyResponse_le299 h1⟩
  · exact ⟨⟨"delete", endpoint, mergedHeaders m.account.access_token extra_headers, none⟩,
      rfl, fun h1 h2 => classifyResponse_401 h1 h2,
      fun h1 h2 h3 => classifyResponse_gt299 h1 h2 h3,
      fun h1 => classifyResponse_le299 h1⟩
  · exact ⟨⟨"patch", endpoint, mergedHeaders m.account.access_token extra_headers, data⟩,
      rfl, fun h1 h2 => classifyResponse_401 h1 h2,
      fun h1 h2 h3 => classifyResponse_gt299 h1 h2 h3,
      fun h1 => classifyResponse_le299 h1⟩

/-- C1 witness: a decodable 401 response to a concrete post raises the
authentication failure. -/
theorem c1_gateway_classification_witness :
    (Message._make_api_call ok401Transport msg0 "post" "ep" none none).1 =
      .error (.authError "Access Token Error, Received 401 from Outlook REST Endpoint") := by
  obtain ⟨req, -, h401, -, -⟩ :=
    c1_gateway_classification ok401Transport msg0 "post" "ep" none none (Or.inl rfl)
  exact h401 rfl rfl

/-- C1 counterexample: a 401 response with an empty (JSON-undecodable)
body makes the Gateway raise the JSON decode error — the error-branch
logging evaluates `r.json()` — not the authentication failure the claim
promises for every 401 response. -/
theorem c1_counterexample :
    (Message._make_api_call emptyBody401Transport msg0 "post" "ep" none none).1 =
      .error (.valueError "Expecting value: line 1 column 1 (char 0)") ∧
    PyError.valueError "Expecting value: line 1 column 1 (char 0)" ≠
      PyError.authError "Access Token Error, Received 401 from Outlook REST Endpoint" :=
  ⟨rfl, by decide⟩

/-- C2: assigning the `is_read` property issues a single patch whose body
is `json.dumps` of `\x7bIsRead: b\x7d`; on success the local field
becomes `b`, and on any raise the message is left exactly as it was. -/
theorem c2_is_read_setter (tr : Transport) (m : Message) (b : Bool) :
    (∃ req : HttpRequest,
      (Message.set_is_read tr m b).2.1 = [req] ∧
      req.http_type = "patch" ∧
      req.endpoint = "https://outlook.office.com/api/v2.0/me/messages/" ++ m.message_id ∧
      req.data = some ("\x7b\"IsRead\": " ++ (if b then "true" else "false") ++ "\x7d")) ∧
    ((Message.set_is_read tr m b).1 = .ok () →
      (Message.set_is_read tr m b).2.2 =
        Message.mk m.account m.message_id m.body m.subject m.sender_email m.sender_name
          m.to_recipients b) ∧
    (∀ e, (Message.set_is_read tr m b).1 = .error e →
      (Message.set_is_read tr m b).2.2 = m) := by
  cases hC : classifyResponse (tr (isReadRequest m b)) with
  | ok u =>
    rw [set_is_read_eq tr m b, hC]
    exact ⟨⟨isReadRequest m b, rfl, rfl, rfl, rfl⟩, fun _ => rfl,
      fun e he => Except.noConfusion he⟩
  | error e =>
    rw [set_is_read_eq tr m b, hC]
    exact ⟨⟨isReadRequest m b, rfl, rfl, rfl, rfl⟩, fun hok => Except.noConfusion hok,
      fun e he => rfl⟩

/-- C2 witness: a successful call updates the local field, a failing one
leaves the concrete message untouched. -/
theorem c2_is_read_setter_witness :
    (Message.set_is_read okTransport msg0 true).2.2 =
      Message.mk acct0 "AAA" "" "" "" "" [] true ∧
    (Message.set_is_read fail500Transport msg0 true).2.2 = msg0 := by
  constructor
  · exact (c2_is_read_setter okTransport msg0 true).2.1 rfl
  · exact (c2_is_read_setter fail500Transport msg0 true).2.2
      (.miscError "Unhandled error received from Outlook. Check logging output.") rfl

/-- C3 counterexample: forwarding with an empty recipient sequence is not
rejected — the payload is built with an empty `ToRecipients` array, the
network call is performed, and it can even succeed, contradicting the
claim that empty recipients raise the generic failure with no network
call. -/
theorem c3_counterexample :
    Message.forward_message okTransport msg0 (some (Recipients.list [])) none =
      (.ok (), [⟨"post", "https://outlook.office.com/api/v2.0/me/messages/AAA/forward",
        defaultHeaders "tok", some "\x7b\"ToRecipients\" : []\x7d"⟩], msg0) := rfl

/-- C3 (amended): only recipients equal to `None` are rejected — the
generic failure is raised before any network call and the message is
untouched; empty recipients go through to the transport. -/
theorem c3_forward_none_rejected (tr : Transport) (m : Message)
    (forward_comment : Option String) :
    Message.forward_message tr m none forward_comment =
      (.error (.miscError "To Recipients is not defined. Can not forward message."),
        [], m) := rfl

/-- C4 (code bug): every copy action raises `KeyError: ' "DestinationId"'`
from the malformed `str.format` template before the Gateway is ever
invoked (the network-call log is empty), for every destination folder. -/
theorem c4_copy_keyerror (tr : Transport) (m : Message) (folder_id : String) :
    Message.copy_to tr m folder_id = (.error (.keyError " \"DestinationId\""), [], m) ∧
    Message.copy_to_inbox tr m = (.error (.keyError " \"DestinationId\""), [], m) ∧
    Message.copy_to_deleted tr m = (.error (.keyError " \"DestinationId\""), [], m) ∧
    Message.copy_to_drafts tr m = (.error (.keyError " \"DestinationId\""), [], m) :=
  ⟨rfl, rfl, rfl, rfl⟩

/-- C5 counterexample: for a comment consisting of one double quote, the
body `reply` produces is the raw concatenation — three quotes in a row —
and not the JSON encoding of the comment object, because the source never
escapes the comment. -/
theorem c5_counterexample :
    (Message.reply okTransport msg0 "\"").2.1 =
      [⟨"post", "https://outlook.office.com/api/v2.0/me/messages/AAA/reply",
        defaultHeaders "tok", some "\x7b \"Comment\": \"\"\"\x7d"⟩] ∧
    some "\x7b \"Comment\": \"\"\"\x7d" ≠ some (spec_reply_body "\"") :=
  ⟨rfl, by decide⟩

/-- C5 (amended): `reply(c)` posts to the message's `/reply` endpoint a
body that is the literal concatenation of the comment between fixed JSON
fragments; that body equals the JSON encoding of the comment object
exactly when the comment needs no JSON escaping (no quote, no backslash,
no control character). -/
theorem c5_reply_body (tr : Transport) (m : Message) (c : String) :
    (∃ req : HttpRequest, (Message.reply tr m c).2.1 = [req] ∧
      req.http_type = "post" ∧
      req.endpoint = "https://outlook.office.com/api/v2.0/me/messages/" ++ m.message_id
        ++ "/reply" ∧
      req.data = some ("\x7b \"Comment\": \"" ++ c ++ "\"\x7d")) ∧
    ((∀ ch ∈ c.toList, jsonPlainChar ch) →
      "\x7b \"Comment\": \"" ++ c ++ "\"\x7d" = spec_reply_body c) := by
  constructor
  · exact ⟨⟨"post", "https://outlook.office.com/api/v2.0/me/messages/" ++ m.message_id
        ++ "/reply", mergedHeaders m.account.access_token none,
        some ("\x7b \"Comment\": \"" ++ c ++ "\"\x7d")⟩, rfl, rfl, rfl, rfl⟩
  · intro h
    rw [spec_reply_body, json_string_lit_plain h]
    have h1 : ("\x7b \"Comment\": " : String) ++ "\"" = "\x7b \"Comment\": \"" := rfl
    have h2 : ("\"" : String) ++ "\x7d" = "\"\x7d" := rfl
    rw [← h1, ← h2]
    rw [String.append_assoc "\x7b \"Comment\": " "\"" c]
    rw [← String.append_assoc ("\x7b \"Comment\": " ++ ("\"" ++ c)) "\"" "\x7d"]
    rw [String.append_assoc "\x7b \"Comment\": " ("\"" ++ c) "\""]

/-- C5 witness: for a comment needing no escaping the produced body is the
JSON encoding of the comment object. -/
theorem c5_reply_body_witness :
    spec_reply_body "hello" = "\x7b \"Comment\": \"hello\"\x7d" :=
  ((c5_reply_body okTransport msg0 "hello").2 (by decide)).symm

/-- C6: given required keys `Id` and `IsRead`, the single-object factory
succeeds with `message_id` and `is_read` taken from them, and every
missing optional field defaults to the empty string / empty sequence;
dropping `Id` or `IsRead` from the same object instead raises the
`KeyError` lookup failure. -/
theorem c6_factory (account : Account) (j : RawMessageJson) (i : String) (b : Bool)
    (hId : j.Id = some i) (hRead : j.IsRead = some b) :
    (∃ m : Message, _json_to_message account j = .ok m ∧
      m.message_id = i ∧ m.is_read = b ∧ m.account = account ∧
      (j.Subject = none → m.subject = "") ∧
      (j.Body = none → m.body = "") ∧
      (∀ bo : RawBody, j.Body = some bo → bo.Content = none → m.body = "") ∧
      (j.Sender = none → m.sender_email = "" ∧ m.sender_name = "") ∧
      (∀ s : RawSender, j.Sender = some s → s.EmailAddress = none →
        m.sender_email = "" ∧ m.sender_name = "") ∧
      (∀ s : RawSender, ∀ ea : RawEmailAddress, j.Sender = some s →
        s.EmailAddress = some ea →
        (ea.Address = none → m.sender_email = "") ∧ (ea.Name = none → m.sender_name = "")) ∧
      (j.ToRecipients = none → m.to_recipients = [])) ∧
    (_json_to_message account
      (RawMessageJson.mk none j.Subject j.Sender j.Body j.ToRecipients j.IsRead) =
      .error (.keyError "Id")) ∧
    (_json_to_message account
      (RawMessageJson.mk (some i) j.Subject j.Sender j.Body j.ToRecipients none) =
      .error (.keyError "IsRead")) := by
  obtain ⟨jId, jSub, jSen, jBo, jRec, jRead⟩ := j
  simp only at hId hRead
  subst hId
  subst hRead
  refine ⟨⟨_, rfl, rfl, rfl, rfl, ?_, ?_, ?_, ?_, ?_, ?_, ?_⟩, rfl, rfl⟩
  · intro h; simp only at h; simp [h]
  · intro h; simp only at h; simp [h]
  · intro bo hbo hc; simp only at hbo; simp [hbo, hc]
  · intro h; simp only at h; simp [h]
  · intro s hs he; simp only at hs; simp [hs, he]
  · intro s ea hs he
    simp only at hs
    constructor
    · intro ha; simp [hs, he, ha]
    · intro hn; simp [hs, he, hn]
  · intro h; simp only at h; simp [h]

/-- Fixture: the spec section 8 example object, `Id` and `IsRead` only. -/
def j0 : RawMessageJson := ⟨some "AAA", none, none, none, none, some false⟩

/-- C6 witness: the spec's own example — `\x7b"Id":"AAA","IsRead":false\x7d`
with no `Subject` yields a message with empty subject. -/
theorem c6_factory_witness :
    ∃ m : Message, _json_to_message acct0 j0 = .ok m ∧
      m.message_id = "AAA" ∧ m.is_read = false ∧ m.subject = "" := by
  obtain ⟨⟨m, hok, hid, hread, hacc, hsub, hrest⟩, -, -⟩ :=
    c6_factory acct0 j0 "AAA" false rfl rfl
  exact ⟨m, hok, hid, hread, hsub rfl⟩

theorem mapMessages_ok (account : Account) :
    ∀ (l : List RawMessageJson) (ms : List Message),
      mapMessages account l = .ok ms →
      ms.length = l.length ∧
      ∀ i : Nat, ∀ hi : i < l.length, ∀ hm : i < ms.length,
        _json_to_message account (l.get ⟨i, hi⟩) = .ok (ms.get ⟨i, hm⟩) := by
  intro l
  induction l with
  | nil =>
    intro ms h
    simp only [mapMessages, Except.ok.injEq] at h
    subst h
    exact ⟨rfl, fun i hi _ => absurd hi (Nat.not_lt_zero i)⟩
  | cons j rest ih =>
    intro ms h
    simp only [mapMessages] at h
    cases hj : _json_to_message account j with
    | error e => rw [hj] at h; simp at h
    | ok m =>
      rw [hj] at h
      cases hrest : mapMessages account rest with
      | error e => rw [hrest] at h; simp at h
      | ok tl =>
        rw [hrest] at h
        simp only [Except.ok.injEq] at h
        subst h
        obtain ⟨hlen, hidx⟩ := ih tl hrest
        refine ⟨by simp [hlen], ?_⟩
        intro i hi hm
        cases i with
        | zero => exact hj
        | succ k =>
          exact hidx k (Nat.lt_of_succ_lt_succ hi) (Nat.lt_of_succ_lt_succ hm)

/-- C7: whenever the batch factory succeeds on a batch whose `value`
field holds the array `arr`, it returns exactly `arr.length` messages,
and the i-th message is the single-object factory's result on the i-th
array entry — input order preserved. -/
theorem c7_batch (account : Account) (batch : RawBatchJson)
    (arr : List RawMessageJson) (hv : batch.value = some arr)
    (ms : List Message) (hok : _json_to_messages account batch = .ok ms) :
    ms.length = arr.length ∧
    ∀ i : Nat, ∀ hi : i < arr.length, ∀ hm : i < ms.length,
      _json_to_message account (arr.get ⟨i, hi⟩) = .ok (ms.get ⟨i, hm⟩) := by
  obtain ⟨v⟩ := batch
  simp only at hv
  subst hv
  exact mapMessages_ok account arr ms hok

/-- Fixture: first batch entry. -/
def jA : RawMessageJson := ⟨some "AAA", some "first", none, none, none, some false⟩

/-- Fixture: second batch entry. -/
def jB : RawMessageJson := ⟨some "BBB", none, none, none, none, some true⟩

/-- Fixture: a two-element batch. -/
def batch0 : RawBatchJson := ⟨some [jA, jB]⟩

/-- Fixture: the message `jA` parses to. -/
def msgA : Message := ⟨acct0, "AAA", "", "first", "", "", [], false⟩

/-- Fixture: the message `jB` parses to. -/
def msgB : Message := ⟨acct0, "BBB", "", "", "", "", [], true⟩

/-- C7 witness: on a concrete two-element batch the lengths agree and the
first output is the single-object factory result of the first input. -/
theorem c7_batch_witness :
    ([msgA, msgB] : List Message).length = ([jA, jB] : List RawMessageJson).length ∧
    _json_to_message acct0 (([jA, jB] : List RawMessageJson).get ⟨0, by decide⟩) =
      .ok (([msgA, msgB] : List Message).get ⟨0, by decide⟩) := by
  have h := c7_batch acct0 batch0 [jA, jB] rfl [msgA, msgB] rfl
  exact ⟨h.1, h.2 0 (by decide) (by decide)⟩

/-- C8 (code bug evaluation): on any verb outside post/delete/patch the
Gateway raises before performing any network call — but because the
source writes `raise NotImplemented` (the constant, not the
`NotImplementedError` class) the exception actually raised is the
`TypeError` Python produces for a non-exception raise; and every
production call site in `Message` uses only post, delete or patch (the
copy actions reach no call at all). -/
theorem c8_unimplemented_verb (tr : Transport) (m : Message) (endpoint : String)
    (extra_headers : Option (List (String × String))) (data : Option String)
    (c : String) (rs : Recipients) (cm : Option String) (fid : String) (b : Bool) :
    Message._make_api_call tr m "get" endpoint extra_headers data =
      (.error (.typeError "exceptions must derive from BaseException"), []) ∧
    (Message.reply tr m c).2.1.map HttpRequest.http_type = ["post"] ∧
    (Message.reply_all tr m c).2.1.map HttpRequest.http_type = ["post"] ∧
    (Message.forward_message tr m (some rs) cm).2.1.map HttpRequest.http_type = ["post"] ∧
    (Message.forward_message tr m none cm).2.1 = [] ∧
    (Message.delete tr m).2.1.map HttpRequest.http_type = ["delete"] ∧
    (Message.delete_message tr m).2.2.1.map HttpRequest.http_type = ["delete"] ∧
    (Message.move_to tr m fid).2.1.map HttpRequest.http_type = ["post"] ∧
    (Message.move_to_inbox tr m).2.1.map HttpRequest.http_type = ["post"] ∧
    (Message.move_to_deleted tr m).2.1.map HttpRequest.http_type = ["post"] ∧
    (Message.move_to_drafts tr m).2.1.map HttpRequest.http_type = ["post"] ∧
    (Message.copy_to tr m fid).2.1 = [] ∧
    (Message.copy_to_inbox tr m).2.1 = [] ∧
    (Message.copy_to_deleted tr m).2.1 = [] ∧
    (Message.copy_to_drafts tr m).2.1 = [] ∧
    (Message.set_is_read tr m b).2.1.map HttpRequest.http_type = ["patch"] := by
  refine ⟨rfl, rfl, rfl, rfl, rfl, rfl, rfl, rfl, rfl, rfl, rfl, rfl, rfl, rfl, rfl, ?_⟩
  cases hC : classifyResponse (tr (isReadRequest m b)) <;>
    rw [set_is_read_eq tr m b, hC] <;> rfl

/-- C9: the deprecated `delete_message()` alias performs exactly the
remote behavior of `delete()` — one delete request to the bare message
endpoint with the default headers and no body — and additionally hands
the caller the deprecation warning. -/
theorem c9_delete_alias (tr : Transport) (m : Message) :
    Message.delete_message tr m =
      (["delete_message() is deprecated and will be removed in v1.0. Use delete() instead."],
       Message.delete tr m) ∧
    ∃ req : HttpRequest, (Message.delete tr m).2.1 = [req] ∧
      req.http_type = "delete" ∧
      req.endpoint = "https://outlook.office.com/api/v2.0/me/messages/" ++ m.message_id ∧
      req.headers = defaultHeaders m.account.access_token ∧
      req.data = none :=
  ⟨rfl, ⟨⟨"delete", "https://outlook.office.com/api/v2.0/me/messages/" ++ m.message_id,
    mergedHeaders m.account.access_token none, none⟩, rfl, rfl, rfl, rfl, rfl⟩⟩

/-- C10: every action method except the `is_read` setter leaves the local
message fields untouched, whatever the transport answers — the returned
message state is the input message itself. -/
theorem c10_frame (tr : Transport) (m : Message) (r : Option Recipients)
    (cm : Option String) (c : String) (fid : String) :
    (Message.forward_message tr m r cm).2.2 = m ∧
    (Message.reply tr m c).2.2 = m ∧
    (Message.reply_all tr m c).2.2 = m ∧
    (Message.delete tr m).2.2 = m ∧
    (Message.delete_message tr m).2.2.2 = m ∧
    (Message._move_to tr m fid).2.2 = m ∧
    (Message.move_to tr m fid).2.2 = m ∧
    (Message.move_to_inbox tr m).2.2 = m ∧
    (Message.move_to_deleted tr m).2.2 = m ∧
    (Message.move_to_drafts tr m).2.2 = m ∧
    (Message._copy_to tr m fid).2.2 = m ∧
    (Message.copy_to tr m fid).2.2 = m ∧
    (Message.copy_to_inbox tr m).2.2 = m ∧
    (Message.copy_to_deleted tr m).2.2 = m ∧
    (Message.copy_to_drafts tr m).2.2 = m := by
  refine ⟨?_, rfl, rfl, rfl, rfl, rfl, rfl, rfl, rfl, rfl, rfl, rfl, rfl, rfl, rfl⟩
  cases r with
  | none => rfl
  | some rs => rfl
